import Mathlib

/-!
Shallow embedding of `examples/k4aviewer/k4adevicedockcontrol.cpp` from the
Azure-Kinect-Sensor-SDK viewer: the device dock control that configures and
operates one depth-camera device through an immediate-mode GUI, polls its
sensor queues once per UI frame, and mirrors its color-control settings.

The embedding follows the C++ source function by function:
  * `hasTimedOut` / `pollSensor` embed the anonymous-namespace helpers
    `HasTimedOut` and `PollSensor`;
  * `applyColorSetting`, `readColorSetting`, `applyDefaultColorSettings`
    embed the color-control cache logic against an abstract hardware device;
  * `imuPollFnLoop` / `imuPollFn` embed the IMU queue-draining lambda inside
    `PollDevice`;
  * `showStep` embeds `K4ADeviceDockControl::Show` as a state-transition
    function over the pending configuration, GUI inputs, and an effect trace.

Side effects (observer notification, stop calls, termination notices, error
statuses, hardware start calls) are made explicit as effect records so that
claims about which effects occur on which paths become provable statements.
-/

namespace K4AViewer

/-- `k4a_wait_result_t`: result of polling a sensor queue.  `failed` stands
for `K4A_WAIT_RESULT_FAILED` (and is the only value besides succeeded and
timeout that the enum carries). -/
inductive WaitResult
  | succeeded
  | timeout
  | failed
  deriving DecidableEq, Repr

/-- `MaxTimeoutCount`: the fixed threshold of consecutive timeouts
(`static constexpr int MaxTimeoutCount = 120`). -/
def MaxTimeoutCount : Int := 120

/-- Embeds `HasTimedOut(k4a_wait_result_t result, int &timeoutCounter)`.
Returns the boolean result together with the updated counter (the C++
function mutates the counter by reference). -/
def hasTimedOut : WaitResult → Int → Bool × Int
  | .succeeded, _ => (false, 0)
  | .timeout, c => if c < MaxTimeoutCount then (false, c + 1) else (true, c)
  | .failed, c => (true, c)

/-- Observable effects of one `PollSensor` call on one channel. -/
structure PollEffects (α : Type) where
  /-- payloads pushed through `dataSource.NotifyObservers` -/
  notified : List α
  /-- whether `K4AViewerErrorManager::Instance().SetErrorStatus` ran -/
  errorSet : Bool
  /-- whether `stopFn(device)` ran -/
  stopCalled : Bool
  /-- whether `dataSource.NotifyTermination()` ran -/
  terminated : Bool
  deriving DecidableEq, Repr

/-- Embeds `PollSensor`: given the result of `pollFn` (status plus the data
it produced) and the current timeout counter, returns the updated counter
and the effects performed.  The branch structure mirrors the C++:
success notifies observers; a timeout that `HasTimedOut` absorbed does
nothing; every other case sets an error, calls `stopFn` and notifies
termination. -/
def pollSensor {α : Type} (pollStatus : WaitResult) (data : α) (timeoutCounter : Int) :
    Int × PollEffects α :=
  let r := hasTimedOut pollStatus timeoutCounter
  let c' := r.2
  if pollStatus = .succeeded then
    (c', ⟨[data], false, false, false⟩)
  else if pollStatus = .timeout ∧ r.1 = false then
    (c', ⟨[], false, false, false⟩)
  else
    (c', ⟨[], true, true, true⟩)

/-- State reached after `n` consecutive timeout polls of one channel,
starting from a zero timeout counter: the counter, whether any step called
the stop function, and whether any step notified termination. -/
def runConsecutiveTimeouts : Nat → Int × Bool × Bool
  | 0 => (0, false, false)
  | n + 1 =>
    let s := runConsecutiveTimeouts n
    let step := pollSensor (α := Unit) .timeout () s.1
    (step.1, s.2.1 || step.2.stopCalled, s.2.2 || step.2.terminated)

/-! ## Color controls -/

/-- `k4a_color_control_mode_t`. -/
inductive ColorControlMode
  | auto
  | manual
  deriving DecidableEq, Repr

/-- The `ColorSetting` cache-entry struct: a mode together with a value. -/
structure ColorSetting where
  Mode : ColorControlMode
  Value : Int
  deriving DecidableEq, Repr

/-- `k4a_color_control_command_t`. -/
inductive ColorControlCommand
  | exposureTimeAbsolute
  | autoExposurePriority
  | brightness
  | contrast
  | saturation
  | sharpness
  | whitebalance
  | backlightCompensation
  | gain
  | powerlineFrequency
  deriving DecidableEq, Repr

/-- Abstract model of the device's color-control hardware.  `applied` is the
setting the hardware currently holds for each command; `settle` describes
what the hardware actually applies when asked for a given setting (the
source comments note the camera "can decide to set a different value than
the one we give it", i.e. it may clamp or override the request). -/
structure ColorHardware where
  applied : ColorControlCommand → ColorSetting
  settle : ColorControlCommand → ColorSetting → ColorSetting

/-- Embeds `K4ADevice::SetColorControl` as seen from this file: on success
(`ok = true`) the hardware settles the requested setting for that command;
on failure the hardware is unchanged.  Returns the new hardware state. -/
def setColorControl (ok : Bool) (hw : ColorHardware) (cmd : ColorControlCommand)
    (s : ColorSetting) : ColorHardware :=
  if ok then
    { hw with applied := fun c => if c = cmd then hw.settle cmd s else hw.applied c }
  else hw

/-- Embeds `K4ADeviceDockControl::ReadColorSetting`: `GetColorControl` reads
the hardware's applied mode and value into the cache entry; on failure the
out-parameters (hence the cache entry) are left unchanged and an error
status is pushed.  Returns the updated cache entry and the error flag. -/
def readColorSetting (ok : Bool) (hw : ColorHardware) (cmd : ColorControlCommand)
    (cacheEntry : ColorSetting) : ColorSetting × Bool :=
  if ok then (hw.applied cmd, false) else (cacheEntry, true)

/-- Embeds `K4ADeviceDockControl::ApplyColorSetting`: write the cached mode
and value to the hardware with `SetColorControl` (pushing an error status if
that fails), then unconditionally read the hardware's actual applied setting
back into the cache entry with `ReadColorSetting`.  Returns the new hardware
state, the new cache entry, and whether any error status was pushed. -/
def applyColorSetting (setOk getOk : Bool) (hw : ColorHardware) (cmd : ColorControlCommand)
    (cacheEntry : ColorSetting) : ColorHardware × ColorSetting × Bool :=
  let hw' := setColorControl setOk hw cmd cacheEntry
  let r := readColorSetting getOk hw' cmd cacheEntry
  (hw', r.1, !setOk || r.2)

/-- The `m_colorSettingsCache` struct: one cache entry per color control. -/
structure ColorSettingsCache where
  ExposureTimeUs : ColorSetting
  WhiteBalance : ColorSetting
  AutoExposurePriority : ColorSetting
  Brightness : ColorSetting
  Contrast : ColorSetting
  Saturation : ColorSetting
  Sharpness : ColorSetting
  BacklightCompensation : ColorSetting
  Gain : ColorSetting
  PowerlineFrequency : ColorSetting
  deriving DecidableEq, Repr

/-- Embeds `K4ADeviceDockControl::ApplyDefaultColorSettings`, which stores a
hard-coded default into each cache field and applies it to the hardware, in
source order.  `okSet`/`okGet` give the outcome of each hardware call.
Besides the final hardware and cache, it returns the list of
`SetColorControl` requests performed, i.e. each `(command, setting)` pair
written to the hardware, in order. -/
def applyDefaultColorSettings (okSet okGet : ColorControlCommand → Bool)
    (hw : ColorHardware) (cache : ColorSettingsCache) :
    ColorHardware × ColorSettingsCache × List (ColorControlCommand × ColorSetting) :=
  let e : ColorSetting := ⟨.auto, 15625⟩
  let r1 := applyColorSetting (okSet .exposureTimeAbsolute) (okGet .exposureTimeAbsolute)
    hw .exposureTimeAbsolute e
  let cache := { cache with ExposureTimeUs := r1.2.1 }
  let w : ColorSetting := ⟨.auto, 4500⟩
  let r2 := applyColorSetting (okSet .whitebalance) (okGet .whitebalance)
    r1.1 .whitebalance w
  let cache := { cache with WhiteBalance := r2.2.1 }
  let aep : ColorSetting := ⟨.manual, 1⟩
  let r3 := applyColorSetting (okSet .autoExposurePriority) (okGet .autoExposurePriority)
    r2.1 .autoExposurePriority aep
  let cache := { cache with AutoExposurePriority := r3.2.1 }
  let br : ColorSetting := ⟨.manual, 128⟩
  let r4 := applyColorSetting (okSet .brightness) (okGet .brightness) r3.1 .brightness br
  let cache := { cache with Brightness := r4.2.1 }
  let co : ColorSetting := ⟨.manual, 5⟩
  let r5 := applyColorSetting (okSet .contrast) (okGet .contrast) r4.1 .contrast co
  let cache := { cache with Contrast := r5.2.1 }
  let sa : ColorSetting := ⟨.manual, 32⟩
  let r6 := applyColorSetting (okSet .saturation) (okGet .saturation) r5.1 .saturation sa
  let cache := { cache with Saturation := r6.2.1 }
  let sh : ColorSetting := ⟨.manual, 2⟩
  let r7 := applyColorSetting (okSet .sharpness) (okGet .sharpness) r6.1 .sharpness sh
  let cache := { cache with Sharpness := r7.2.1 }
  let bc : ColorSetting := ⟨.manual, 0⟩
  let r8 := applyColorSetting (okSet .backlightCompensation) (okGet .backlightCompensation)
    r7.1 .backlightCompensation bc
  let cache := { cache with BacklightCompensation := r8.2.1 }
  let g : ColorSetting := ⟨.manual, 0⟩
  let r9 := applyColorSetting (okSet .gain) (okGet .gain) r8.1 .gain g
  let cache := { cache with Gain := r9.2.1 }
  let pf : ColorSetting := ⟨.manual, 2⟩
  let r10 := applyColorSetting (okSet .powerlineFrequency) (okGet .powerlineFrequency)
    r9.1 .powerlineFrequency pf
  let cache := { cache with PowerlineFrequency := r10.2.1 }
  (r10.1, cache,
    [(.exposureTimeAbsolute, e), (.whitebalance, w), (.autoExposurePriority, aep),
     (.brightness, br), (.contrast, co), (.saturation, sa), (.sharpness, sh),
     (.backlightCompensation, bc), (.gain, g), (.powerlineFrequency, pf)])

/-! ## IMU queue draining (the lambda inside `PollDevice`) -/

/-- Embeds the `while (K4A_WAIT_RESULT_SUCCEEDED == (status = device.PollImu(result)))`
loop: `queue` is the sequence of results successive `PollImu` calls return,
each success paired with the sample it writes into `result`.  On a
non-success the out-parameter is left unfilled, so `result` keeps its
previous value.  An exhausted queue stands for a device whose next poll
times out.  Returns the final `status`, `result` and `gotSample`. -/
def imuDrainLoop {α : Type} : List (WaitResult × α) → α → Bool → WaitResult × α × Bool
  | [], r, got => (.timeout, r, got)
  | (st, s) :: rest, r, got =>
    if st = .succeeded then imuDrainLoop rest s true
    else (st, r, got)

/-- Embeds the whole IMU polling lambda in `K4ADeviceDockControl::PollDevice`:
drain the queue, then report success if at least one sample was read and the
loop ended with a timeout.  Returns the overall status and the sample left
in `result`. -/
def imuPollFn {α : Type} (queue : List (WaitResult × α)) (initial : α) : WaitResult × α :=
  let r := imuDrainLoop queue initial false
  (if r.2.2 = true ∧ r.1 = .timeout then .succeeded else r.1, r.2.1)

/-! ## The `Show` frame: configuration state machine -/

/-- `k4a_depth_mode_t` (the values this file uses). -/
inductive K4aDepthMode
  | off
  | nfov2x2Binned
  | nfovUnbinned
  | wfov2x2Binned
  | wfovUnbinned
  | passiveIR
  deriving DecidableEq, Repr

/-- `k4a_color_resolution_t` (the values this file uses). -/
inductive K4aColorResolution
  | off
  | r720p
  | r1080p
  | r1440p
  | r1536p
  | r2160p
  | r3072p
  deriving DecidableEq, Repr

/-- `k4a_image_format_t` (the color formats this file offers). -/
inductive K4aImageFormat
  | mjpg
  | nv12
  | yuy2
  | bgra32
  deriving DecidableEq, Repr

/-- `k4a_fps_t`. -/
inductive K4aFps
  | fps5
  | fps15
  | fps30
  deriving DecidableEq, Repr

/-- `k4a_wired_sync_mode_t`. -/
inductive K4aWiredSyncMode
  | standalone
  | master
  | subordinate
  deriving DecidableEq, Repr

/-- The viewer's pending-configuration struct `K4ADeviceConfiguration`
(`m_pendingDeviceConfiguration`), with the fields this file reads or
writes. -/
structure K4ADeviceConfiguration where
  EnableColorCamera : Bool
  EnableDepthCamera : Bool
  EnableImu : Bool
  EnableMicrophone : Bool
  ColorFormat : K4aImageFormat
  ColorResolution : K4aColorResolution
  DepthMode : K4aDepthMode
  Framerate : K4aFps
  DisableStreamingIndicator : Bool
  SynchronizedImagesOnly : Bool
  DepthDelayOffColorUsec : Int
  WiredSyncMode : K4aWiredSyncMode
  SubordinateDelayOffMasterUsec : Int
  deriving DecidableEq, Repr

/-- The parts of the device (and attached microphone) that `Show` and
`PollDevice` read. -/
structure DeviceState where
  camerasStarted : Bool
  imuStarted : Bool
  micPresent : Bool
  micStarted : Bool
  /-- whether `m_microphone->GetStatusCode()` equals `SoundIoErrorNone` -/
  micStatusOk : Bool
  deriving DecidableEq, Repr

/-- Embeds `K4ADeviceDockControl::DeviceIsStarted`. -/
def deviceIsStarted (d : DeviceState) : Bool :=
  d.camerasStarted || d.imuStarted || (d.micPresent && d.micStarted)

/-- The dock control's mutable members that `Show` touches. -/
structure ControlState where
  config : K4ADeviceConfiguration
  firstRun : Bool
  paused : Bool
  syncInConnected : Bool
  syncOutConnected : Bool
  cameraTimeoutCounter : Int
  imuTimeoutCounter : Int
  deriving DecidableEq, Repr

/-- The environment one `Show` call runs in: the device, the settings
manager, and the outcomes of this frame's hardware polls. -/
structure ShowEnv where
  device : DeviceState
  /-- `K4AViewerSettingsManager::Instance().GetSavedDeviceConfiguration()`,
  loaded from external storage, so an arbitrary configuration -/
  savedConfig : K4ADeviceConfiguration
  /-- a default-constructed `K4ADeviceConfiguration` (defined in the header,
  outside this file), so kept abstract -/
  defaultConfig : K4ADeviceConfiguration
  /-- cable states `GetSyncCablesConnected` reports if Refresh is pressed -/
  deviceSyncIn : Bool
  deviceSyncOut : Bool
  /-- result of `device.PollCameras` this frame -/
  cameraPollStatus : WaitResult
  /-- results of successive `device.PollImu` calls this frame -/
  imuQueue : List (WaitResult × Int)
  deriving DecidableEq, Repr

/-- The user interactions and persisted tree-node open flags of one frame. -/
structure GuiInput where
  closePressed : Bool
  depthEnableClicked : Bool
  depthTreeOpen : Bool
  depthModeClick : Option K4aDepthMode
  colorEnableClicked : Bool
  colorTreeOpen : Bool
  colorFormatClick : Option K4aImageFormat
  colorResolutionClick : Option K4aColorResolution
  colorControlsTreeOpen : Bool
  resetColorDefaultsPressed : Bool
  framerateClick : Option K4aFps
  disableLedClicked : Bool
  imuEnableClicked : Bool
  micEnableClicked : Bool
  internalSyncTreeOpen : Bool
  syncImagesOnlyClicked : Bool
  depthDelayEdit : Option Int
  externalSyncTreeOpen : Bool
  refreshSyncPressed : Bool
  syncModeClick : Option K4aWiredSyncMode
  subDelayEdit : Option Int
  restorePressed : Bool
  savePressed : Bool
  resetPressed : Bool
  startPressed : Bool
  stopPressed : Bool
  pausePressed : Bool
  deriving DecidableEq, Repr

/-- `ImGuiExtensions::K4ACheckbox`: toggles the flag when clicked while
enabled; returns the new flag and whether it changed. -/
def k4aCheckbox (value enabled clicked : Bool) : Bool × Bool :=
  if enabled && clicked then (!value, true) else (value, false)

/-- A group of `ImGuiExtensions::K4ARadioButton`s over one enum field:
`click` is the button the user pressed this frame, if any; a press writes
that button's value when the button is enabled.  Returns the updated value
and whether a press landed. -/
def radioGroup {β : Type} (current : β) (click : Option β) (enabledFor : β → Bool) :
    β × Bool :=
  match click with
  | none => (current, false)
  | some v => if enabledFor v then (v, true) else (current, false)

/-- `ImGuiExtensions::K4AInputScalar`: accepts an edited value when
enabled. -/
def k4aInputScalar (current : Int) (enabled : Bool) (edit : Option Int) : Int :=
  match edit with
  | none => current
  | some v => if enabled then v else current

/-- Result of the depth-configuration block of `Show` (lines 314-363). -/
structure DepthSectionResult where
  config : K4ADeviceConfiguration
  enabledChanged : Bool
  /-- the value `ImGui::TreeNode("Depth Configuration")` returned -/
  treeOpen : Bool
  /-- the final value of the local `depthModeUpdated` (false if the tree
  was closed and the block skipped) -/
  modeUpdated : Bool
  deriving DecidableEq, Repr

/-- Embeds the "Enable Depth Camera" checkbox and the depth-configuration
tree node of `Show`: the depth-mode radio buttons are editable only when the
device is stopped and the depth camera enabled, and when the (updated) depth
mode is WFOV Unbinned on an update or on the first run, the framerate is
forced to 15 FPS.  On the first run or an enable toggle, the tree's open
state is forced to the enable flag; otherwise it is the persisted GUI
state. -/
def showDepthSection (started firstRun : Bool) (cfg : K4ADeviceConfiguration)
    (inp : GuiInput) : DepthSectionResult :=
  let cb := k4aCheckbox cfg.EnableDepthCamera (!started) inp.depthEnableClicked
  let cfg := { cfg with EnableDepthCamera := cb.1 }
  let depthEnabledStateChanged := cb.2
  let treeOpen := if firstRun || depthEnabledStateChanged then cfg.EnableDepthCamera
    else inp.depthTreeOpen
  if treeOpen then
    let depthSettingsEditable := !started && cfg.EnableDepthCamera
    let r := radioGroup cfg.DepthMode inp.depthModeClick (fun _ => depthSettingsEditable)
    let depthModeUpdated := depthEnabledStateChanged || r.2
    let cfg := { cfg with DepthMode := r.1 }
    let framerate :=
      if (depthModeUpdated || firstRun) && cfg.DepthMode = .wfovUnbinned then
        K4aFps.fps15
      else cfg.Framerate
    let cfg := { cfg with Framerate := framerate }
    ⟨cfg, depthEnabledStateChanged, treeOpen, depthModeUpdated⟩
  else
    ⟨cfg, depthEnabledStateChanged, treeOpen, false⟩

/-- Result of the color-configuration block of `Show` (lines 365-468). -/
structure ColorSectionResult where
  config : K4ADeviceConfiguration
  enabledChanged : Bool
  /-- the value `ImGui::TreeNode("Color Configuration")` returned -/
  treeOpen : Bool
  /-- the final value of the local `colorResolutionUpdated` (false if the
  tree was closed and the block skipped) -/
  resolutionUpdated : Bool
  deriving DecidableEq, Repr

/-- Embeds the "Enable Color Camera" checkbox and the color-configuration
tree node of `Show`: format radio buttons; forcing the resolution to 720p
when the chosen format does not support high resolution; resolution radio
buttons (only 720p selectable for such formats); and forcing the framerate
to 15 FPS when the (updated) resolution is 3072p on an update or on the
first run. -/
def showColorSection (started firstRun : Bool) (cfg : K4ADeviceConfiguration)
    (inp : GuiInput) : ColorSectionResult :=
  let cb := k4aCheckbox cfg.EnableColorCamera (!started) inp.colorEnableClicked
  let cfg := { cfg with EnableColorCamera := cb.1 }
  let colorEnableStateChanged := cb.2
  let treeOpen := if firstRun || colorEnableStateChanged then cfg.EnableColorCamera
    else inp.colorTreeOpen
  if treeOpen then
    let colorSettingsEditable := !started && cfg.EnableColorCamera
    let rf := radioGroup cfg.ColorFormat inp.colorFormatClick (fun _ => colorSettingsEditable)
    let colorFormatUpdated := rf.2
    let cfg := { cfg with ColorFormat := rf.1 }
    let imageFormatSupportsHighResolution :=
      cfg.ColorFormat ≠ .nv12 && cfg.ColorFormat ≠ .yuy2
    let res0 :=
      if (colorFormatUpdated || firstRun) && !imageFormatSupportsHighResolution then
        K4aColorResolution.r720p
      else cfg.ColorResolution
    let cfg := { cfg with ColorResolution := res0 }
    let rr := radioGroup cfg.ColorResolution inp.colorResolutionClick
      (fun res =>
        colorSettingsEditable &&
          (res = .r720p || imageFormatSupportsHighResolution))
    let colorResolutionUpdated := colorEnableStateChanged || rr.2
    let cfg := { cfg with ColorResolution := rr.1 }
    let framerate :=
      if (colorResolutionUpdated || firstRun) && cfg.ColorResolution = .r3072p then
        K4aFps.fps15
      else cfg.Framerate
    let cfg := { cfg with Framerate := framerate }
    ⟨cfg, colorEnableStateChanged, treeOpen, colorResolutionUpdated⟩
  else
    ⟨cfg, colorEnableStateChanged, treeOpen, false⟩

/-- Embeds the framerate block of `Show` (lines 606-624): computes
`supports30fps` and `enableFramerate`, offers the 30 FPS button only when
both hold, the 15/5 FPS buttons when framerate is editable, then the
"Disable streaming LED" checkbox.  Returns the updated configuration and
the enabled flag that was passed to the 30 FPS radio button. -/
def showFramerateSection (started : Bool) (cfg : K4ADeviceConfiguration)
    (inp : GuiInput) : K4ADeviceConfiguration × Bool :=
  let supports30fps :=
    !(cfg.EnableColorCamera && cfg.ColorResolution = .r3072p) &&
      !(cfg.EnableDepthCamera && cfg.DepthMode = .wfovUnbinned)
  let enableFramerate :=
    !started && (cfg.EnableColorCamera || cfg.EnableDepthCamera)
  let rf := radioGroup cfg.Framerate inp.framerateClick
    (fun f => match f with
      | .fps30 => enableFramerate && supports30fps
      | _ => enableFramerate)
  let cfg := { cfg with Framerate := rf.1 }
  let led := k4aCheckbox cfg.DisableStreamingIndicator (!started) inp.disableLedClicked
  ({ cfg with DisableStreamingIndicator := led.1 }, enableFramerate && supports30fps)

/-- Embeds lines 628-665 of `Show`: the "Enable IMU" checkbox, clearing
`SynchronizedImagesOnly` unless both cameras are enabled, the microphone
checkbox (or forcing the flag off when no microphone is present), and the
Internal Sync tree node with the synchronized-images-only checkbox and the
depth-delay input. -/
def showImuMicSyncSection (started micPresent : Bool) (cfg : K4ADeviceConfiguration)
    (inp : GuiInput) : K4ADeviceConfiguration :=
  let imu := k4aCheckbox cfg.EnableImu (!started) inp.imuEnableClicked
  let cfg := { cfg with EnableImu := imu.1 }
  let synchronizedImagesAvailable := cfg.EnableColorCamera && cfg.EnableDepthCamera
  let cfg := { cfg with
    SynchronizedImagesOnly := cfg.SynchronizedImagesOnly && synchronizedImagesAvailable }
  let micEnabled :=
    if micPresent then
      (k4aCheckbox cfg.EnableMicrophone (!started) inp.micEnableClicked).1
    else false
  let cfg := { cfg with EnableMicrophone := micEnabled }
  let syncOnly :=
    if inp.internalSyncTreeOpen then
      (k4aCheckbox cfg.SynchronizedImagesOnly
        (!started && synchronizedImagesAvailable) inp.syncImagesOnlyClicked).1
    else cfg.SynchronizedImagesOnly
  let depthDelay :=
    if inp.internalSyncTreeOpen then
      k4aInputScalar cfg.DepthDelayOffColorUsec (!started) inp.depthDelayEdit
    else cfg.DepthDelayOffColorUsec
  { cfg with SynchronizedImagesOnly := syncOnly, DepthDelayOffColorUsec := depthDelay }

/-- Embeds the External Sync tree node of `Show` (lines 667-716): the
Refresh button re-reads the cable states; when sync modes are unsupported
the wired sync mode is forced back to standalone; the master/subordinate
radio buttons need a connected cable and an enabled camera; the
subordinate-delay input is editable while stopped.  Returns the updated
configuration and the updated cable-state members. -/
def showExternalSyncSection (started firstRun syncIn syncOut devSyncIn devSyncOut : Bool)
    (cfg : K4ADeviceConfiguration) (inp : GuiInput) :
    K4ADeviceConfiguration × Bool × Bool :=
  let treeOpen := if firstRun && (syncIn || syncOut) then true else inp.externalSyncTreeOpen
  if treeOpen then
    let syncIn := if inp.refreshSyncPressed then devSyncIn else syncIn
    let syncOut := if inp.refreshSyncPressed then devSyncOut else syncOut
    let syncModesSupported := (syncIn || syncOut) &&
      (cfg.EnableColorCamera || cfg.EnableDepthCamera)
    let wsm0 := if !syncModesSupported then K4aWiredSyncMode.standalone else cfg.WiredSyncMode
    let rm := radioGroup wsm0 inp.syncModeClick
      (fun m => match m with
        | .standalone => !started
        | _ => !started && syncModesSupported)
    let subDelay :=
      k4aInputScalar cfg.SubordinateDelayOffMasterUsec (!started) inp.subDelayEdit
    ({ cfg with WiredSyncMode := rm.1, SubordinateDelayOffMasterUsec := subDelay },
      syncIn, syncOut)
  else (cfg, syncIn, syncOut)

/-- Embeds the Restore / Save / Reset button row (lines 741-748), all three
enabled only while the device is stopped: Restore loads the saved
configuration, Save stores the pending one, Reset replaces it with a
default-constructed configuration and stores that.  Returns the updated
configuration and what (if anything) was written to the settings manager. -/
def showProfileButtons (started : Bool) (savedConfig defaultConfig : K4ADeviceConfiguration)
    (cfg : K4ADeviceConfiguration) (inp : GuiInput) :
    K4ADeviceConfiguration × Option K4ADeviceConfiguration :=
  let cfg := if !started && inp.restorePressed then savedConfig else cfg
  let written : Option K4ADeviceConfiguration :=
    if !started && inp.savePressed then some cfg else none
  if !started && inp.resetPressed then (defaultConfig, some defaultConfig)
  else (cfg, written)

/-- The hardware start calls one press of the Start button triggers. -/
structure StartEffects where
  /-- `m_device->StartCameras(deviceConfig)` was invoked -/
  startCamerasCalled : Bool
  /-- the pending configuration passed to `StartCameras`, when invoked -/
  startCamerasConfig : Option K4ADeviceConfiguration
  /-- `m_device->StartImu()` was invoked -/
  startImuCalled : Bool
  /-- `m_microphone->Start()` was invoked -/
  startMicCalled : Bool
  deriving DecidableEq, Repr

/-- No start call. -/
def StartEffects.silent : StartEffects := ⟨false, none, false, false⟩

/-- Embeds `K4ADeviceDockControl::Start` together with the guards inside
`StartCameras`, `StartImu` and `StartMicrophone`: cameras are started when
either camera is enabled and they are not already running, the IMU and the
microphone when their enable flags are set and they are not already
running (the microphone also has to exist).  `Start` also resets
`m_paused`. -/
def startFn (dev : DeviceState) (cfg : K4ADeviceConfiguration) : StartEffects :=
  let enableCameras := cfg.EnableColorCamera || cfg.EnableDepthCamera
  let cams := enableCameras && !dev.camerasStarted
  { startCamerasCalled := cams,
    startCamerasConfig := if cams then some cfg else none,
    startImuCalled := cfg.EnableImu && !dev.imuStarted,
    startMicCalled := cfg.EnableMicrophone && dev.micPresent && !dev.micStarted }

/-- One `PollDevice` call's per-channel activity and effects. -/
structure PollDeviceEffects where
  /-- how many times the camera queue was polled (`device.PollCameras`) -/
  cameraPolls : Nat
  /-- how many times the IMU channel went through `PollSensor` -/
  imuPolls : Nat
  /-- how many times the microphone status was checked -/
  micChecks : Nat
  cameraEffects : PollEffects Unit
  imuEffects : PollEffects Int
  micErrorSet : Bool
  /-- `StopMicrophone` ran because the microphone reported an error -/
  micStopCalled : Bool
  deriving DecidableEq, Repr

/-- `PollEffects` of a channel that was not polled. -/
def PollEffects.silent (α : Type) : PollEffects α := ⟨[], false, false, false⟩

/-- Embeds `K4ADeviceDockControl::PollDevice`: poll the camera queue through
`PollSensor` only if the cameras are started, poll the IMU (with the
queue-draining lambda) through `PollSensor` only if the IMU is started, and
check the microphone's status code only if a microphone is present, stopping
it on error.  Returns the updated camera and IMU timeout counters and the
effects. -/
def pollDevice (dev : DeviceState) (cameraPollStatus : WaitResult)
    (imuQueue : List (WaitResult × Int)) (camCounter imuCounter : Int) :
    Int × Int × PollDeviceEffects :=
  let cam :=
    if dev.camerasStarted then
      let r := pollSensor cameraPollStatus () camCounter
      (r.1, r.2, 1)
    else (camCounter, PollEffects.silent Unit, 0)
  let imu :=
    if dev.imuStarted then
      let pr := imuPollFn imuQueue 0
      let r := pollSensor pr.1 pr.2 imuCounter
      (r.1, r.2, 1)
    else (imuCounter, PollEffects.silent Int, 0)
  let micBad := dev.micPresent && !dev.micStatusOk
  (cam.1, imu.1,
    { cameraPolls := cam.2.2, imuPolls := imu.2.2,
      micChecks := if dev.micPresent then 1 else 0,
      cameraEffects := cam.2.1, imuEffects := imu.2.1,
      micErrorSet := micBad, micStopCalled := micBad })

/-- Everything one `Show` call does beyond mutating the control's state. -/
structure ShowEffects where
  /-- how many times `PollDevice` ran this frame -/
  pollDeviceCalls : Nat
  poll : PollDeviceEffects
  /-- the "Reset to default##RGB" button ran `ApplyDefaultColorSettings` -/
  resetColorDefaultsApplied : Bool
  /-- the enabled flag passed to the "30 FPS" radio button (false when the
  framerate block was skipped by an early return) -/
  framerate30Selectable : Bool
  /-- configuration written to the settings manager by Save/Reset -/
  savedConfigWritten : Option K4ADeviceConfiguration
  start : StartEffects
  /-- `Stop()` ran: `StopCameras`, `StopImu` and `StopMicrophone` -/
  stopAllCalled : Bool
  deriving DecidableEq, Repr

/-- Effects of a frame in which nothing happened. -/
def ShowEffects.silent : ShowEffects :=
  ⟨0, ⟨0, 0, 0, PollEffects.silent Unit, PollEffects.silent Int, false, false⟩,
    false, false, none, StartEffects.silent, false⟩

/-- Embeds `K4ADeviceDockControl::Show` as one frame of the configuration
state machine.  An early return on "Close device" does nothing else.
Otherwise the frame computes `deviceIsStarted`, polls the device unless
paused, runs the widget sections in source order (depth, color, color
controls, framerate, IMU/microphone/internal sync, external sync, profile
buttons), and finally either offers Start (device stopped: pressing it with
a valid start mode runs `Start`) or offers Stop and Pause/Resume (device
started).  Returns the new control state and the frame's effects. -/
def showStep (st : ControlState) (env : ShowEnv) (inp : GuiInput) :
    ControlState × ShowEffects :=
  if inp.closePressed then (st, ShowEffects.silent)
  else
    let started := deviceIsStarted env.device
    let pd :=
      if !st.paused then
        pollDevice env.device env.cameraPollStatus env.imuQueue
          st.cameraTimeoutCounter st.imuTimeoutCounter
      else
        (st.cameraTimeoutCounter, st.imuTimeoutCounter,
          ShowEffects.silent.poll)
    let pollCalls : Nat := if !st.paused then 1 else 0
    let ds := showDepthSection started st.firstRun st.config inp
    let cs := showColorSection started st.firstRun ds.config inp
    let resetColorDefaults := inp.colorControlsTreeOpen && inp.resetColorDefaultsPressed
    let fr := showFramerateSection started cs.config inp
    let cfg := showImuMicSyncSection started env.device.micPresent fr.1 inp
    let es := showExternalSyncSection started st.firstRun st.syncInConnected
      st.syncOutConnected env.deviceSyncIn env.deviceSyncOut cfg inp
    let pb := showProfileButtons started env.savedConfig env.defaultConfig es.1 inp
    let cfg := pb.1
    let enableCameras := cfg.EnableColorCamera || cfg.EnableDepthCamera
    let validStartMode := enableCameras || cfg.EnableMicrophone || cfg.EnableImu
    let doStart := !started && inp.startPressed && validStartMode
    let startEff := if doStart then startFn env.device cfg else StartEffects.silent
    let stopAll := started && inp.stopPressed
    let paused :=
      if doStart then false
      else if started && inp.pausePressed then !st.paused
      else st.paused
    ({ config := cfg, firstRun := false, paused := paused,
       syncInConnected := es.2.1, syncOutConnected := es.2.2,
       cameraTimeoutCounter := pd.1, imuTimeoutCounter := pd.2.1 },
     { pollDeviceCalls := pollCalls, poll := pd.2.2,
       resetColorDefaultsApplied := resetColorDefaults,
       framerate30Selectable := fr.2,
       savedConfigWritten := pb.2,
       start := startEff, stopAllCalled := stopAll })

/-! ## Concrete sample states (used to instantiate the theorems) -/

/-- A hardware model that ignores every request and always settles on
brightness-style value 7 in manual mode. -/
def clampingColorHardware : ColorHardware where
  applied := fun _ => ⟨.manual, 7⟩
  settle := fun _ _ => ⟨.manual, 7⟩

/-- A pending configuration with both cameras enabled at moderate settings. -/
def sampleConfig : K4ADeviceConfiguration where
  EnableColorCamera := true
  EnableDepthCamera := true
  EnableImu := false
  EnableMicrophone := false
  ColorFormat := .mjpg
  ColorResolution := .r720p
  DepthMode := .nfovUnbinned
  Framerate := .fps30
  DisableStreamingIndicator := false
  SynchronizedImagesOnly := true
  DepthDelayOffColorUsec := 0
  WiredSyncMode := .standalone
  SubordinateDelayOffMasterUsec := 0

/-- A stopped device with a healthy microphone attached. -/
def sampleDevice : DeviceState where
  camerasStarted := false
  imuStarted := false
  micPresent := true
  micStarted := false
  micStatusOk := true

/-- An environment around `sampleDevice` with benign poll results. -/
def sampleEnv : ShowEnv where
  device := sampleDevice
  savedConfig := sampleConfig
  defaultConfig := sampleConfig
  deviceSyncIn := false
  deviceSyncOut := false
  cameraPollStatus := .succeeded
  imuQueue := []

/-- A frame with no user interaction and every tree node closed. -/
def idleInput : GuiInput where
  closePressed := false
  depthEnableClicked := false
  depthTreeOpen := false
  depthModeClick := none
  colorEnableClicked := false
  colorTreeOpen := false
  colorFormatClick := none
  colorResolutionClick := none
  colorControlsTreeOpen := false
  resetColorDefaultsPressed := false
  framerateClick := none
  disableLedClicked := false
  imuEnableClicked := false
  micEnableClicked := false
  internalSyncTreeOpen := false
  syncImagesOnlyClicked := false
  depthDelayEdit := none
  externalSyncTreeOpen := false
  refreshSyncPressed := false
  syncModeClick := none
  subDelayEdit := none
  restorePressed := false
  savePressed := false
  resetPressed := false
  startPressed := false
  stopPressed := false
  pausePressed := false

/-- A running (unpaused) control state over `sampleConfig`. -/
def sampleState : ControlState where
  config := sampleConfig
  firstRun := false
  paused := false
  syncInConnected := false
  syncOutConnected := false
  cameraTimeoutCounter := 0
  imuTimeoutCounter := 0

/-- The same control state, paused. -/
def pausedState : ControlState := { sampleState with paused := true }

/-- `sampleDevice` with the cameras streaming. -/
def startedDevice : DeviceState := { sampleDevice with camerasStarted := true }

/-- `sampleEnv` around the streaming device. -/
def startedEnv : ShowEnv := { sampleEnv with device := startedDevice }

/-- First-run state whose saved configuration has WFOV Unbinned pending with
the depth camera disabled and the framerate at 30 FPS. -/
def wfovFirstRunState : ControlState where
  config := { sampleConfig with
    EnableColorCamera := false, EnableDepthCamera := false,
    DepthMode := .wfovUnbinned, Framerate := .fps30 }
  firstRun := true
  paused := false
  syncInConnected := false
  syncOutConnected := false
  cameraTimeoutCounter := 0
  imuTimeoutCounter := 0

/-- A depth-enabled configuration pending WFOV Unbinned at 30 FPS. -/
def wfovConfig : K4ADeviceConfiguration :=
  { sampleConfig with DepthMode := .wfovUnbinned, Framerate := .fps30 }

/-- A color-enabled configuration pending 3072p at 30 FPS. -/
def highResConfig : K4ADeviceConfiguration :=
  { sampleConfig with ColorResolution := .r3072p, Framerate := .fps30 }

/-- A saved configuration that violates the synchronized-images invariant:
synchronized images only, with both cameras disabled. -/
def badSavedConfig : K4ADeviceConfiguration :=
  { sampleConfig with
    EnableColorCamera := false, EnableDepthCamera := false,
    SynchronizedImagesOnly := true }

/-- `sampleEnv` whose settings manager holds `badSavedConfig`. -/
def badSavedEnv : ShowEnv := { sampleEnv with savedConfig := badSavedConfig }

/-- A frame that only presses the Restore button. -/
def restoreInput : GuiInput := { idleInput with restorePressed := true }

/-- A frame that clicks the WFOV Unbinned depth-mode radio button and the
3072p color-resolution radio button. -/
def clickWfovAnd3072pInput : GuiInput :=
  { idleInput with
    depthModeClick := some .wfovUnbinned,
    colorResolutionClick := some .r3072p }

/-! ## Theorems -/

lemma runConsecutiveTimeouts_le (n : Nat) (h : n ≤ 120) :
    runConsecutiveTimeouts n = ((n : Int), false, false) := by
  induction n with
  | zero => rfl
  | succ k ih =>
    have hk : k ≤ 120 := Nat.le_of_succ_le h
    have hk' : (k : Int) < 120 := by exact_mod_cast h
    have hklt : (k : Int) < MaxTimeoutCount := by
      simpa [MaxTimeoutCount] using hk'
    simp [runConsecutiveTimeouts, ih hk, pollSensor, hasTimedOut, hklt]

lemma runConsecutiveTimeouts_succ (n : Nat) :
    runConsecutiveTimeouts (n + 1) =
      ((pollSensor (α := Unit) .timeout () (runConsecutiveTimeouts n).1).1,
        (runConsecutiveTimeouts n).2.1 ||
          (pollSensor (α := Unit) .timeout () (runConsecutiveTimeouts n).1).2.stopCalled,
        (runConsecutiveTimeouts n).2.2 ||
          (pollSensor (α := Unit) .timeout () (runConsecutiveTimeouts n).1).2.terminated) :=
  rfl

lemma runConsecutiveTimeouts_past_threshold (k : Nat) :
    runConsecutiveTimeouts (121 + k) = (120, true, true) := by
  induction k with
  | zero =>
    have h120 := runConsecutiveTimeouts_le 120 (by norm_num)
    show runConsecutiveTimeouts (120 + 1) = (120, true, true)
    rw [runConsecutiveTimeouts_succ, h120]
    simp [pollSensor, hasTimedOut, MaxTimeoutCount]
  | succ m ih =>
    show runConsecutiveTimeouts ((121 + m) + 1) = (120, true, true)
    rw [runConsecutiveTimeouts_succ, ih]
    simp [pollSensor, hasTimedOut, MaxTimeoutCount]

/-- C1: for a channel polled through `PollSensor` starting from a zero
timeout counter, each of the timeouts numbered 1 through 120 with no
intervening success increments the counter (after `n ≤ 120` of them it holds
`n`) and causes no stop call and no termination notification; only once the
count of consecutive timeouts exceeds the threshold of 120 — from the 121st
timeout on — is the timeout fatal: the stop function is called on the device
and the data source is notified of termination. -/
theorem pollSensor_timeout_fatal_only_past_threshold (n : Nat) (h1 : 1 ≤ n)
    (h2 : n ≤ 120) :
    (runConsecutiveTimeouts n).2.1 = false ∧ (runConsecutiveTimeouts n).2.2 = false ∧
      (runConsecutiveTimeouts n).1 = (n : Int) ∧
      ∀ k : Nat, (runConsecutiveTimeouts (121 + k)).2.1 = true ∧
        (runConsecutiveTimeouts (121 + k)).2.2 = true := by
  have h := runConsecutiveTimeouts_le n h2
  refine ⟨by rw [h], by rw [h], by rw [h], fun k => ?_⟩
  rw [runConsecutiveTimeouts_past_threshold k]
  exact ⟨rfl, rfl⟩

/-- Witness for `pollSensor_timeout_fatal_only_past_threshold` at `n = 120`. -/
theorem pollSensor_timeout_fatal_only_past_threshold_witness :
    1 ≤ 120 ∧ 120 ≤ 120 ∧
      ((runConsecutiveTimeouts 120).2.1 = false ∧
        (runConsecutiveTimeouts 120).2.2 = false ∧
        (runConsecutiveTimeouts 120).1 = (120 : Int) ∧
        ∀ k : Nat, (runConsecutiveTimeouts (121 + k)).2.1 = true ∧
          (runConsecutiveTimeouts (121 + k)).2.2 = true) :=
  ⟨by norm_num, by norm_num,
    pollSensor_timeout_fatal_only_past_threshold 120 (by norm_num) (by norm_num)⟩

/-- C3: a poll result that is neither success nor timeout takes the fatal
path immediately, whatever the current timeout counter: the error status is
set, the stop function is called on the device, the data source is notified
of termination (and the counter is left unchanged). -/
theorem pollSensor_failure_fatal_immediately {α : Type} (c : Int) (d : α) :
    pollSensor .failed d c = (c, ⟨[], true, true, true⟩) := by
  simp [pollSensor, hasTimedOut]

/-- C4: for every starting timeout counter, a successful poll resets the
counter to zero and notifies the data source's observers with the polled
payload, and neither calls the stop function nor notifies termination. -/
theorem pollSensor_success_resets_and_notifies {α : Type} (c : Int) (d : α) :
    pollSensor .succeeded d c = (0, ⟨[d], false, false, false⟩) := by
  simp [pollSensor, hasTimedOut]

/-- C2: `ApplyColorSetting` writes the cached setting to the hardware and
then unconditionally reads the hardware's actual applied setting back into
the cache: for every hardware model, the cache afterwards equals the
hardware's applied value — `settle` of the request when the write succeeded,
the untouched hardware value when it failed (the read-back still happens) —
and whenever the hardware settles on something other than the request, the
cache afterwards does not hold the requested value. -/
theorem applyColorSetting_caches_readback (hw : ColorHardware) (setOk : Bool)
    (cmd : ColorControlCommand) (s : ColorSetting)
    (hne : hw.settle cmd s ≠ s) :
    ((applyColorSetting setOk true hw cmd s).2.1 =
        (applyColorSetting setOk true hw cmd s).1.applied cmd) ∧
      (applyColorSetting true true hw cmd s).2.1 = hw.settle cmd s ∧
      (applyColorSetting false true hw cmd s).2.1 = hw.applied cmd ∧
      (applyColorSetting true true hw cmd s).2.1 ≠ s := by
  refine ⟨?_, ?_, ?_, ?_⟩
  · cases setOk <;> simp [applyColorSetting, readColorSetting, setColorControl]
  · simp [applyColorSetting, readColorSetting, setColorControl]
  · simp [applyColorSetting, readColorSetting, setColorControl]
  · simpa [applyColorSetting, readColorSetting, setColorControl] using hne

/-- Witness for `applyColorSetting_caches_readback` on a hardware model that
overrides every brightness request with value 7. -/
theorem applyColorSetting_caches_readback_witness :
    clampingColorHardware.settle .brightness ⟨.manual, 128⟩ ≠ ⟨.manual, 128⟩ ∧
      (((applyColorSetting true true clampingColorHardware .brightness
            ⟨.manual, 128⟩).2.1 =
          (applyColorSetting true true clampingColorHardware .brightness
            ⟨.manual, 128⟩).1.applied .brightness) ∧
        (applyColorSetting true true clampingColorHardware .brightness
            ⟨.manual, 128⟩).2.1 =
          clampingColorHardware.settle .brightness ⟨.manual, 128⟩ ∧
        (applyColorSetting false true clampingColorHardware .brightness
            ⟨.manual, 128⟩).2.1 =
          clampingColorHardware.applied .brightness ∧
        (applyColorSetting true true clampingColorHardware .brightness
            ⟨.manual, 128⟩).2.1 ≠ ⟨.manual, 128⟩) :=
  ⟨by decide,
    applyColorSetting_caches_readback clampingColorHardware true .brightness
      ⟨.manual, 128⟩ (by decide)⟩

/-- C5: `ApplyDefaultColorSettings` issues exactly the fixed hardware writes
exposure time 15625 in automatic mode, white balance 4500 in automatic mode,
auto-exposure priority 1, brightness 128, contrast 5, saturation 32,
sharpness 2, backlight compensation 0, gain 0 and powerline frequency 2, the
last eight in manual mode — the same list for every hardware state, cache
state and per-call outcome, i.e. computed from no input. -/
theorem applyDefaultColorSettings_writes_fixed_constants
    (okSet okGet : ColorControlCommand → Bool) (hw : ColorHardware)
    (cache : ColorSettingsCache) :
    (applyDefaultColorSettings okSet okGet hw cache).2.2 =
      [(.exposureTimeAbsolute, ⟨.auto, 15625⟩), (.whitebalance, ⟨.auto, 4500⟩),
        (.autoExposurePriority, ⟨.manual, 1⟩), (.brightness, ⟨.manual, 128⟩),
        (.contrast, ⟨.manual, 5⟩), (.saturation, ⟨.manual, 32⟩),
        (.sharpness, ⟨.manual, 2⟩), (.backlightCompensation, ⟨.manual, 0⟩),
        (.gain, ⟨.manual, 0⟩), (.powerlineFrequency, ⟨.manual, 2⟩)] :=
  rfl

lemma imuDrainLoop_succ_prefix {α : Type} (samples : List α) (term : WaitResult)
    (hterm : term ≠ .succeeded) (junk : α) (rest : List (WaitResult × α)) :
    ∀ (r : α) (got : Bool),
      imuDrainLoop (samples.map (fun s => (WaitResult.succeeded, s)) ++
          (term, junk) :: rest) r got
        = (term, samples.getLastD r, got || !samples.isEmpty) := by
  induction samples with
  | nil =>
    intro r got
    simp [imuDrainLoop, hterm]
  | cons a as ih =>
    intro r got
    simp [imuDrainLoop, ih]
    cases as with
    | nil => simp
    | cons b bs =>
      simp [List.getLast?_eq_getLast_of_ne_nil (List.cons_ne_nil b bs)]

/-- C9: the IMU polling lambda drains the queue keeping only the most
recently returned sample; when at least one sample was read and the drain
then ended with a timeout, the overall result is success carrying the last
sample, so the trailing timeout is not counted; a timeout with no sample
read stays a timeout (leaving the out-parameter untouched). -/
theorem imuPollFn_drains_and_absorbs_trailing_timeout {α : Type}
    (samples : List α) (junk seed : α) (rest : List (WaitResult × α))
    (h : samples ≠ []) :
    imuPollFn (samples.map (fun s => (WaitResult.succeeded, s)) ++
        (WaitResult.timeout, junk) :: rest) seed
      = (.succeeded, samples.getLast h) ∧
      imuPollFn ((WaitResult.timeout, junk) :: rest) seed = (.timeout, seed) := by
  constructor
  · have hd := imuDrainLoop_succ_prefix samples .timeout (by simp) junk rest seed false
    have hne : samples.isEmpty = false := by simpa using h
    simp [imuPollFn, hd, hne, List.getLastD_eq_getLast?,
      List.getLast?_eq_getLast_of_ne_nil h]
  · simp [imuPollFn, imuDrainLoop]

/-- Witness for `imuPollFn_drains_and_absorbs_trailing_timeout` on a queue
returning samples 5 and 7 before timing out. -/
theorem imuPollFn_drains_and_absorbs_trailing_timeout_witness :
    ([5, 7] : List Int) ≠ [] ∧
      (imuPollFn (([5, 7] : List Int).map (fun s => (WaitResult.succeeded, s)) ++
            (WaitResult.timeout, (0 : Int)) :: []) (1 : Int)
          = (.succeeded, ([5, 7] : List Int).getLast (by decide)) ∧
        imuPollFn ((WaitResult.timeout, (0 : Int)) :: []) (1 : Int) =
          (.timeout, (1 : Int))) :=
  ⟨by decide,
    imuPollFn_drains_and_absorbs_trailing_timeout [5, 7] 0 1 [] (by decide)⟩

/-- C6: the configuration-editing widgets of a `Show` frame mutate only the
pending configuration and never start the hardware: if the Start button is
not pressed, or the device is already started (so no Start button is drawn),
the frame performs no `StartCameras`, `StartImu` or microphone start call;
and when `StartCameras` is invoked it receives exactly the frame's final
pending configuration, i.e. the one `Start` converts and passes on. -/
theorem showStep_starts_hardware_only_from_start_button (st : ControlState)
    (env : ShowEnv) (inp : GuiInput) :
    (inp.startPressed = false ∨ deviceIsStarted env.device = true →
      (showStep st env inp).2.start = StartEffects.silent) ∧
    ((showStep st env inp).2.start.startCamerasCalled = true →
      (showStep st env inp).2.start.startCamerasConfig =
        some (showStep st env inp).1.config) := by
  by_cases hc : inp.closePressed = true
  · constructor
    · intro _
      simp [showStep, hc, ShowEffects.silent]
    · intro h
      simp [showStep, hc, ShowEffects.silent, StartEffects.silent] at h
  · constructor
    · rintro (h | h) <;> simp [showStep, hc, h]
    · intro h
      simp only [showStep, hc] at h ⊢
      simp only [if_false, Bool.false_eq_true] at h ⊢
      split at h
      · rename_i hC
        rw [if_pos hC]
        simp only [startFn] at h ⊢
        simp only [h, if_true]
      · rename_i hC
        simp [StartEffects.silent] at h

/-- Witness for `showStep_starts_hardware_only_from_start_button`: an idle
frame over the stopped sample device performs no hardware start call. -/
theorem showStep_starts_hardware_only_from_start_button_witness :
    (showStep sampleState sampleEnv idleInput).2.start = StartEffects.silent :=
  (showStep_starts_hardware_only_from_start_button sampleState sampleEnv idleInput).1
    (Or.inl rfl)

/-- C7 counterexample: on a `Show` frame over a started device with the
control paused, `PollDevice` runs zero times, not exactly once as the claim
asserts of every frame. -/
theorem showStep_paused_frame_never_polls :
    pausedState.paused = true ∧
      (showStep pausedState startedEnv idleInput).2.pollDeviceCalls = 0 := by
  decide

/-- C7 (amended): on every `Show` frame where the Close button is not
pressed and the control is not paused, `PollDevice` runs exactly once, and
inside it the camera queue is polled exactly once if the cameras are started
and not at all otherwise, the IMU likewise, and the microphone is checked
exactly once iff one is present — so no channel is polled a second time
within one frame. -/
theorem showStep_polls_each_channel_once (st : ControlState) (env : ShowEnv)
    (inp : GuiInput) (hclose : inp.closePressed = false)
    (hpause : st.paused = false) :
    (showStep st env inp).2.pollDeviceCalls = 1 ∧
      (showStep st env inp).2.poll.cameraPolls =
        (if env.device.camerasStarted then 1 else 0) ∧
      (showStep st env inp).2.poll.imuPolls =
        (if env.device.imuStarted then 1 else 0) ∧
      (showStep st env inp).2.poll.micChecks =
        (if env.device.micPresent then 1 else 0) := by
  refine ⟨?_, ?_, ?_, ?_⟩ <;>
    cases hcam : env.device.camerasStarted <;>
      cases himu : env.device.imuStarted <;>
        simp [showStep, hclose, hpause, pollDevice, hcam, himu]

/-- Witness for `showStep_polls_each_channel_once` on an unpaused frame over
the sample device with its cameras streaming. -/
theorem showStep_polls_each_channel_once_witness :
    (showStep sampleState startedEnv idleInput).2.pollDeviceCalls = 1 ∧
      (showStep sampleState startedEnv idleInput).2.poll.cameraPolls =
        (if startedEnv.device.camerasStarted then 1 else 0) ∧
      (showStep sampleState startedEnv idleInput).2.poll.imuPolls =
        (if startedEnv.device.imuStarted then 1 else 0) ∧
      (showStep sampleState startedEnv idleInput).2.poll.micChecks =
        (if startedEnv.device.micPresent then 1 else 0) :=
  showStep_polls_each_channel_once sampleState startedEnv idleInput rfl rfl

/-- C8 counterexample: on a first frame whose restored configuration has the
depth camera disabled but depth mode WFOV Unbinned pending at 30 FPS, the
depth-configuration tree node is forced closed (its open state is set to the
enable flag), the 15-FPS forcing block is skipped, and the frame ends with
the framerate still at 30 FPS, contrary to the claim that on the first frame
a pending WFOV-Unbinned depth mode sets the framerate to 15 FPS. -/
theorem showStep_firstRun_wfov_framerate_not_forced :
    wfovFirstRunState.firstRun = true ∧
      wfovFirstRunState.config.DepthMode = K4aDepthMode.wfovUnbinned ∧
      (showStep wfovFirstRunState sampleEnv idleInput).1.config.Framerate =
        K4aFps.fps30 := by
  decide

/-- C8 (amended): the 15-FPS forcings run on frames where the corresponding
configuration tree node is drawn open: if the depth node is open, the depth
mode was updated or it is the first frame, and the resulting depth mode is
WFOV Unbinned, then the depth section leaves the framerate at 15 FPS;
likewise for the color node with resolution 3072p; and the 30 FPS radio
button is offered as selectable only when neither (color camera enabled with
3072p pending) nor (depth camera enabled with WFOV Unbinned pending)
holds. -/
theorem framerate_forced_to_15_only_with_open_node_and_30fps_gated
    (started firstRun : Bool) (cfg : K4ADeviceConfiguration) (inp : GuiInput) :
    ((showDepthSection started firstRun cfg inp).treeOpen = true →
      ((showDepthSection started firstRun cfg inp).modeUpdated || firstRun) = true →
      (showDepthSection started firstRun cfg inp).config.DepthMode =
        K4aDepthMode.wfovUnbinned →
      (showDepthSection started firstRun cfg inp).config.Framerate = K4aFps.fps15) ∧
      ((showColorSection started firstRun cfg inp).treeOpen = true →
        ((showColorSection started firstRun cfg inp).resolutionUpdated ||
          firstRun) = true →
        (showColorSection started firstRun cfg inp).config.ColorResolution =
          K4aColorResolution.r3072p →
        (showColorSection started firstRun cfg inp).config.Framerate = K4aFps.fps15) ∧
      ((showFramerateSection started cfg inp).2 = true →
        (cfg.EnableColorCamera &&
          cfg.ColorResolution = K4aColorResolution.r3072p) = false ∧
        (cfg.EnableDepthCamera &&
          cfg.DepthMode = K4aDepthMode.wfovUnbinned) = false) := by
  refine ⟨?_, ?_, ?_⟩
  · intro hdOpen hdUpd hdMode
    simp only [showDepthSection] at hdOpen hdUpd hdMode ⊢
    split at hdOpen <;> rename_i ht
    · rw [if_pos ht] at hdUpd hdMode ⊢
      split at hdOpen <;> rename_i h2
      · rw [if_pos h2] at hdUpd hdMode ⊢
        dsimp only at hdUpd hdMode ⊢
        rw [hdMode]
        simp only [eq_self_iff_true, decide_True, Bool.and_true]
        rw [hdUpd]
        rfl
      · dsimp only at hdOpen
        exact absurd hdOpen h2
    · rw [if_neg ht] at hdUpd hdMode ⊢
      split at hdOpen <;> rename_i h2
      · rw [if_pos h2] at hdUpd hdMode ⊢
        dsimp only at hdUpd hdMode ⊢
        rw [hdMode]
        simp only [eq_self_iff_true, decide_True, Bool.and_true]
        rw [hdUpd]
        rfl
      · dsimp only at hdOpen
        exact absurd hdOpen h2
  · intro hcOpen hcUpd hcRes
    simp only [showColorSection] at hcOpen hcUpd hcRes ⊢
    split at hcOpen <;> rename_i ht
    · rw [if_pos ht] at hcUpd hcRes ⊢
      split at hcOpen <;> rename_i h2
      · rw [if_pos h2] at hcUpd hcRes ⊢
        dsimp only at hcUpd hcRes ⊢
        rw [hcRes]
        simp only [eq_self_iff_true, decide_True, Bool.and_true]
        rw [hcUpd]
        rfl
      · dsimp only at hcOpen
        exact absurd hcOpen h2
    · rw [if_neg ht] at hcUpd hcRes ⊢
      split at hcOpen <;> rename_i h2
      · rw [if_pos h2] at hcUpd hcRes ⊢
        dsimp only at hcUpd hcRes ⊢
        rw [hcRes]
        simp only [eq_self_iff_true, decide_True, Bool.and_true]
        rw [hcUpd]
        rfl
      · dsimp only at hcOpen
        exact absurd hcOpen h2
  · intro hsel
    simp only [showFramerateSection, Bool.and_eq_true, Bool.not_eq_true'] at hsel
    exact ⟨hsel.2.1, hsel.2.2⟩

/-- Witness for `framerate_forced_to_15_only_with_open_node_and_30fps_gated`:
with both cameras enabled at NFOV/720p, clicking the WFOV Unbinned and
3072p radio buttons on the first frame forces both sections' framerates to
15 FPS, while 30 FPS was still selectable at the start of the frame. -/
theorem framerate_forced_to_15_only_with_open_node_and_30fps_gated_witness :
    (showDepthSection false true sampleConfig clickWfovAnd3072pInput).config.Framerate =
        K4aFps.fps15 ∧
      (showColorSection false true sampleConfig
          clickWfovAnd3072pInput).config.Framerate = K4aFps.fps15 ∧
      (sampleConfig.EnableColorCamera &&
        sampleConfig.ColorResolution = K4aColorResolution.r3072p) = false ∧
      (sampleConfig.EnableDepthCamera &&
        sampleConfig.DepthMode = K4aDepthMode.wfovUnbinned) = false :=
  ⟨(framerate_forced_to_15_only_with_open_node_and_30fps_gated false true sampleConfig
      clickWfovAnd3072pInput).1 (by decide) (by decide) (by decide),
    (framerate_forced_to_15_only_with_open_node_and_30fps_gated false true sampleConfig
      clickWfovAnd3072pInput).2.1 (by decide) (by decide) (by decide),
    ((framerate_forced_to_15_only_with_open_node_and_30fps_gated false true sampleConfig
      clickWfovAnd3072pInput).2.2 (by decide)).1,
    ((framerate_forced_to_15_only_with_open_node_and_30fps_gated false true sampleConfig
      clickWfovAnd3072pInput).2.2 (by decide)).2⟩

lemma k4aCheckbox_fst_true (v e c : Bool) (h : (k4aCheckbox v e c).1 = true) :
    v = true ∨ e = true := by
  cases v <;> cases e <;> cases c <;> simp_all [k4aCheckbox]

lemma showImuMicSyncSection_sync_invariant (started micPresent : Bool)
    (cfg : K4ADeviceConfiguration) (inp : GuiInput)
    (h : (showImuMicSyncSection started micPresent cfg inp).SynchronizedImagesOnly =
      true) :
    (showImuMicSyncSection started micPresent cfg inp).EnableColorCamera = true ∧
      (showImuMicSyncSection started micPresent cfg inp).EnableDepthCamera = true := by
  simp only [showImuMicSyncSection] at h ⊢
  split at h <;> rename_i hopen
  · rcases k4aCheckbox_fst_true _ _ _ h with h1 | h1
    · exact (Bool.and_eq_true _ _).mp ((Bool.and_eq_true _ _).mp h1).2
    · exact (Bool.and_eq_true _ _).mp ((Bool.and_eq_true _ _).mp h1).2
  · exact (Bool.and_eq_true _ _).mp ((Bool.and_eq_true _ _).mp h).2

lemma showExternalSyncSection_preserves (started firstRun syncIn syncOut dIn dOut : Bool)
    (cfg : K4ADeviceConfiguration) (inp : GuiInput) :
    (showExternalSyncSection started firstRun syncIn syncOut dIn dOut cfg
          inp).1.SynchronizedImagesOnly = cfg.SynchronizedImagesOnly ∧
      (showExternalSyncSection started firstRun syncIn syncOut dIn dOut cfg
          inp).1.EnableColorCamera = cfg.EnableColorCamera ∧
      (showExternalSyncSection started firstRun syncIn syncOut dIn dOut cfg
          inp).1.EnableDepthCamera = cfg.EnableDepthCamera := by
  simp only [showExternalSyncSection]
  split
  · simp
  · split <;> simp

lemma showProfileButtons_no_restore_reset (started : Bool)
    (saved dflt cfg : K4ADeviceConfiguration) (inp : GuiInput)
    (hr : inp.restorePressed = false) (hre : inp.resetPressed = false) :
    (showProfileButtons started saved dflt cfg inp).1 = cfg := by
  simp [showProfileButtons, hr, hre]

/-- C10 counterexample: on a frame where the Restore button loads a saved
configuration that has SynchronizedImagesOnly set with both cameras
disabled, the `Show` call ends with SynchronizedImagesOnly true and the
depth camera disabled — so "at the end of every Show call,
SynchronizedImagesOnly implies both cameras are enabled" fails (the
`&= synchronizedImagesAvailable` clearing runs before the Restore/Reset
buttons replace the configuration). -/
theorem showStep_restore_loads_config_violating_sync_invariant :
    (showStep sampleState badSavedEnv restoreInput).1.config.SynchronizedImagesOnly =
        true ∧
      (showStep sampleState badSavedEnv restoreInput).1.config.EnableDepthCamera =
        false := by
  decide

/-- C10 (amended): on every frame where the Close button is not pressed and
neither Restore nor Reset replaces the pending configuration, the
`SynchronizedImagesOnly` flag is cleared unless both cameras are enabled
(and the Internal-Sync checkbox can set it only while both are enabled), so
at the end of such a `Show` call `SynchronizedImagesOnly` implies both
cameras are enabled. -/
theorem showStep_syncOnly_implies_both_cameras (st : ControlState) (env : ShowEnv)
    (inp : GuiInput) (hclose : inp.closePressed = false)
    (hrestore : inp.restorePressed = false) (hreset : inp.resetPressed = false)
    (hsync : (showStep st env inp).1.config.SynchronizedImagesOnly = true) :
    (showStep st env inp).1.config.EnableColorCamera = true ∧
      (showStep st env inp).1.config.EnableDepthCamera = true := by
  simp only [showStep, hclose, Bool.false_eq_true, if_false] at hsync ⊢
  rw [showProfileButtons_no_restore_reset _ _ _ _ _ hrestore hreset] at hsync ⊢
  rw [(showExternalSyncSection_preserves _ _ _ _ _ _ _ _).1] at hsync
  rw [(showExternalSyncSection_preserves _ _ _ _ _ _ _ _).2.1,
    (showExternalSyncSection_preserves _ _ _ _ _ _ _ _).2.2]
  exact showImuMicSyncSection_sync_invariant _ _ _ _ hsync

/-- Witness for `showStep_syncOnly_implies_both_cameras`: an idle frame over
`sampleConfig` (synchronized images only, both cameras enabled) keeps the
flag set and indeed has both cameras enabled. -/
theorem showStep_syncOnly_implies_both_cameras_witness :
    (showStep sampleState sampleEnv idleInput).1.config.EnableColorCamera = true ∧
      (showStep sampleState sampleEnv idleInput).1.config.EnableDepthCamera = true :=
  showStep_syncOnly_implies_both_cameras sampleState sampleEnv idleInput rfl rfl rfl
    (by decide)

end K4AViewer
